import Mathlib

/-!
Shallow embedding of the playlist reconciliation engine of
`src/playlist_importer.py` (functions `retry_on_failure`,
`normalize_for_search`, `search_youtube_music`, the video-id extraction of
`import_playlist_from_csv`, `add_songs_batch` and `import_playlist`).

Python strings are modelled as Lean `String`, with the string operations
(`strip`, `casefold`/`lower`, whitespace `split`, substring containment)
implemented over the underlying character list so that everything evaluates
inside the kernel.  Python's `str.casefold` and `str.lower` are both modelled
by per-character `Char.toLower` (they agree on the ASCII data handled here).
Dictionaries are association lists where insertion prepends and lookup takes
the first hit.  The remote service (`ytmusicapi`) is an explicit environment
of pure functions, and every remote interaction is recorded in an event trace.
-/

namespace YTImporter

/-! ## Python string primitives -/

/-- `needle.isPrefixOf hay`, written out explicitly over characters. -/
def leadsWith : List Char → List Char → Bool
  | [], _ => true
  | _ :: _, [] => false
  | a :: as, b :: bs => a == b && leadsWith as bs

/-- Python `needle in hay` (substring containment) on character lists. -/
def listContains (needle : List Char) : List Char → Bool
  | [] => leadsWith needle []
  | c :: rest => leadsWith needle (c :: rest) || listContains needle rest

/-- Python `needle in hay` on strings. -/
def containsSub (hay needle : String) : Bool :=
  listContains needle.data hay.data

/-- Python `str.lower()` / `str.casefold()` (ASCII-faithful model). -/
def pyLower (s : String) : String := ⟨s.data.map Char.toLower⟩

/-- Python `str.strip()`: drop whitespace from both ends. -/
def pyStrip (s : String) : String :=
  ⟨((s.data.dropWhile Char.isWhitespace).reverse.dropWhile Char.isWhitespace).reverse⟩

/-- Python `str.split()` (split on whitespace runs, dropping empty pieces),
collecting the current token in an accumulator. -/
def wsTokens : List Char → List Char → List (List Char)
  | [], acc => if acc.isEmpty then [] else [acc.reverse]
  | c :: rest, acc =>
      if c.isWhitespace then
        if acc.isEmpty then wsTokens rest [] else acc.reverse :: wsTokens rest []
      else wsTokens rest (c :: acc)

/-- `' '.join(tokens)` on character lists. -/
def joinSpace : List (List Char) → List Char
  | [] => []
  | [t] => t
  | t :: ts => t ++ ' ' :: joinSpace ts

/-- `' '.join(s.split())`: collapse internal whitespace (lines 172-173). -/
def collapseWs (s : String) : String := ⟨joinSpace (wsTokens s.data [])⟩

/-! ## Retry wrapper (`retry_on_failure`, lines 53-83)

Python exceptions are modelled by `PyExc`: either an ordinary failure
carrying the attributes the wrapper inspects (`isinstance(e,
requests.exceptions.RequestException)` and `e.response.status_code`), or a
`NameError` raised by evaluating an unbound name. -/

/-- The attributes of an exception that `retry_on_failure` inspects. -/
structure PyError where
  isRequestException : Bool
  responseStatus : Option Nat
  msg : String
deriving DecidableEq

inductive PyExc where
  | err (e : PyError)
  | nameError (n : String)
deriving DecidableEq

/-- `str(e)` for the modelled exceptions. -/
def excMsg : PyExc → String
  | .err e => e.msg
  | .nameError n => "NameError: name " ++ n ++ " is not defined"

/-- Lines 66-72 of the wrapper's `except` block.  The module imports `csv`,
`json`, `os`, `sys`, `time`, `re`, `logging`, `functools.wraps` and
`ytmusicapi.YTMusic` but never imports `requests`, so evaluating
`requests.exceptions.RequestException` on line 67 raises
`NameError: name 'requests' is not defined` before any classification
happens.  The classification therefore never returns a Boolean. -/
def classifyRetryable (_e : PyExc) : Except PyExc Bool :=
  Except.error (PyExc.nameError "requests")

/-- The retryability test that lines 66-72 document and attempt to perform
(docstring lines 55-56: "Retries on requests exceptions, timeouts, connection
errors and HTTP 5xx responses"): a `requests` exception, or a response status
code of at least 500. -/
def classifyIntended : PyExc → Bool
  | .err e => e.isRequestException || (match e.responseStatus with
      | some c => decide (500 ≤ c)
      | none => false)
  | .nameError _ => false

/-- The `for attempt in range(1, max_attempts + 1)` loop of the wrapper.
`op` gives the outcome of each attempt, `fuel` counts the remaining loop
iterations.  The result is `none` when the loop falls off the end (Python
`return None`, line 81), otherwise the returned value or the raised
exception, together with the list of `time.sleep` durations performed. -/
def retryGo (maxA backoff : Nat) (op : Nat → Except PyExc α) (attempt : Nat) :
    Nat → Option (Except PyExc α) × List Nat
  | 0 => (none, [])
  | fuel + 1 =>
      match op attempt with
      | .ok a => (some (.ok a), [])
      | .error e =>
          match classifyRetryable e with
          | .error e2 => (some (.error e2), [])
          | .ok r =>
              if !r || attempt == maxA then (some (.error e), [])
              else
                let w := backoff ^ (attempt - 1)
                let rec2 := retryGo maxA backoff op (attempt + 1) fuel
                (rec2.1, w :: rec2.2)

/-- `retry_on_failure(max_attempts, backoff)` applied to an operation, as the
code actually behaves. -/
def retry_on_failure (maxA backoff : Nat) (op : Nat → Except PyExc α) :
    Option (Except PyExc α) × List Nat :=
  retryGo maxA backoff op 1 maxA

/-- Same loop with the intended classification substituted for the
`NameError`-raising one: on a retryable failure with attempts remaining,
sleep `backoff ^ (attempt - 1)` and retry; otherwise re-raise the original
failure. -/
def retryIntendedGo (maxA backoff : Nat) (op : Nat → Except PyExc α) (attempt : Nat) :
    Nat → Option (Except PyExc α) × List Nat
  | 0 => (none, [])
  | fuel + 1 =>
      match op attempt with
      | .ok a => (some (.ok a), [])
      | .error e =>
          if !(classifyIntended e) || attempt == maxA then (some (.error e), [])
          else
            let w := backoff ^ (attempt - 1)
            let rec2 := retryIntendedGo maxA backoff op (attempt + 1) fuel
            (rec2.1, w :: rec2.2)

/-- The retry wrapper as its own docstring and the specification describe it. -/
def retryIntended (maxA backoff : Nat) (op : Nat → Except PyExc α) :
    Option (Except PyExc α) × List Nat :=
  retryIntendedGo maxA backoff op 1 maxA

/-! ## Search normalization, cache and ranking (lines 166-228) -/

/-- `normalize_for_search(title, artist)`, lines 166-182. -/
def normalize_for_search (title artist : String) : String :=
  let t := collapseWs title
  let a := collapseWs artist
  if t != "" && a != "" then "\"" ++ t ++ "\" " ++ a
  else if t != "" then "\"" ++ t ++ "\""
  else if a != "" then a
  else ""

/-- One entry of the list returned by `yt.search(query, filter='songs',
limit=5)`: the fields the ranking loop reads. -/
structure SearchResult where
  videoId : Option String
  title : String
  artistNames : List String
deriving DecidableEq, Inhabited

/-- Line 211: `' '.join(a.get('name') for a in r.get('artists', []) if
a.get('name')).casefold()`. -/
def joinedArtists (r : SearchResult) : String :=
  pyLower (String.intercalate " " (r.artistNames.filter (fun n => n != "")))

/-- Line 212: the current result's title contains the casefolded track title. -/
def titleRule (normTitle : String) (r : SearchResult) : Bool :=
  normTitle != "" && containsSub (pyLower r.title) normTitle

/-- Line 215: the joined artist names contain the casefolded artist. -/
def artistRule (normArtist : String) (r : SearchResult) : Bool :=
  normArtist != "" && containsSub (joinedArtists r) normArtist

/-- The `for r in results` loop of lines 209-217: scan the results in order
and stop at the first one satisfying the title check or, failing that on the
same result, the artist check. -/
def pickBest (normTitle normArtist : String) : List SearchResult → Option SearchResult
  | [] => none
  | r :: rest =>
      if titleRule normTitle r || artistRule normArtist r then some r
      else pickBest normTitle normArtist rest

/-- The module-global `SEARCH_CACHE` dictionary: normalized query string to
`videoId`-or-`None`. -/
abbrev SearchCache := List (String × Option String)

/-- `search_youtube_music(yt, title, artist)`, lines 184-228, with the remote
`yt.search` call abstracted as `searchFn` (already limited to 5 results by the
adapter).  Returns the resolved id (or `none`), the updated cache and the
number of remote search calls issued (0 or 1).  The body's `try`/`except`
swallows exceptions, so the `retry_on_failure` decorator around this function
never observes a failure; `searchFn` is total, making that path dead here. -/
def search_youtube_music (searchFn : String → List SearchResult)
    (cache : SearchCache) (title artist : String) :
    Option String × SearchCache × Nat :=
  let query := normalize_for_search title artist
  if query == "" then (none, cache, 0)
  else
    match cache.lookup query with
    | some v => (v, cache, 0)
    | none =>
        let results := searchFn query
        if results.isEmpty then (none, (query, none) :: cache, 1)
        else
          let best := (pickBest (pyLower title) (pyLower artist) results).getD results.headI
          (best.videoId, (query, best.videoId) :: cache, 1)

/-! ## Video-id extraction from a URL (line 337)

`re.search(r'(?:v=|youtu\.be/)([a-zA-Z0-9_-]{11})', url)`: scan left to
right; at each position try `v=` and then `youtu.be/`, each followed by
exactly eleven identifier characters. -/

/-- The character class `[a-zA-Z0-9_-]`. -/
def isIdChar (c : Char) : Bool := c.isAlphanum || c == '_' || c == '-'

/-- Match `[a-zA-Z0-9_-]{11}` at the head of the list. -/
def grab11 (cs : List Char) : Option (List Char) :=
  let v := cs.take 11
  if v.length == 11 && v.all isIdChar then some v else none

/-- The regex search: leftmost position wins, `v=` tried before `youtu.be/`. -/
def extractFrom : List Char → Option (List Char)
  | [] => none
  | c :: rest =>
      let cs := c :: rest
      let here : Option (List Char) :=
        if leadsWith "v=".data cs then grab11 (cs.drop 2)
        else if leadsWith "youtu.be/".data cs then grab11 (cs.drop 9)
        else none
      match here with
      | some v => some v
      | none => extractFrom rest

/-- `match.group(1)` of the regex search over a URL string. -/
def extractVideoId (url : String) : Option String :=
  (extractFrom url.data).map (fun cs => ⟨cs⟩)

/-! ## Identifier resolution priority

One CSV row's descriptor fields before resolution, and the combined
resolution logic of `import_playlist_from_csv` (lines 321-346: explicit
`MediaId`, then URL extraction, then `search_needed` flag) and
`import_playlist` (lines 443-455: perform the search, or fail with no remote
call). -/

structure TrackDescriptor where
  mediaId : String
  url : String
  title : String
  artists : String
deriving DecidableEq

inductive Method where
  | Direct
  | UrlExtracted
  | Searched
  | Unresolved
deriving DecidableEq

/-- Resolve one descriptor: resulting id (if any), the method used, the
updated search cache and the number of remote calls issued. -/
def resolveDescriptor (searchFn : String → List SearchResult)
    (cache : SearchCache) (d : TrackDescriptor) :
    Option String × Method × SearchCache × Nat :=
  let vid := pyStrip d.mediaId
  if vid != "" then (some vid, .Direct, cache, 0)
  else
    match (if d.url != "" then extractVideoId d.url else none) with
    | some v => (some v, .UrlExtracted, cache, 0)
    | none =>
        if pyStrip d.title != "" then
          let r := search_youtube_music searchFn cache (pyStrip d.title) (pyStrip d.artists)
          (r.fst, .Searched, r.snd.fst, r.snd.snd)
        else (none, .Unresolved, cache, 0)

/-! ## The reconciliation controller (`import_playlist`, lines 385-529) -/

/-- One element of a playlist's `songs` list, as built by
`import_playlist_from_csv` (lines 354-360). -/
structure Song where
  videoId : String
  title : String
  artists : String
  search_needed : Bool
  row_num : Option Nat
deriving DecidableEq

/-- One element of `failed_songs` (lines 482-487 and 500-505). -/
structure FailEntry where
  row : Option Nat
  title : String
  artists : String
  error : String
deriving DecidableEq

/-- Remote interactions and delays, in chronological order. -/
inductive Event where
  | listPlaylists
  | createPlaylist (name : String)
  | searchRemote (query : String)
  | addItems (ids : List String) (ok : Bool)
  | sleep (seconds : Nat)
deriving DecidableEq

/-- One library playlist as returned by `yt.get_library_playlists`. -/
structure LibPlaylist where
  playlistId : String
  title : String
deriving DecidableEq

/-- The remote service: search results per query, the outcome of
`yt.add_playlist_items` per id batch, the library listing (`none` models the
listing call raising, which line 414 catches and treats as no match), and the
id handed back by `yt.create_playlist`. -/
structure Env where
  searchResults : String → List SearchResult
  addOutcome : List String → Except PyError Unit
  library : Option (List LibPlaylist)
  createdId : String

/-- The running counters and accumulators of `import_playlist`, plus the
flushed batches and the event trace. -/
structure RunState where
  successful : Nat
  failed : Nat
  searched : Nat
  skipped : Nat
  failed_songs : List FailEntry
  batch : List String
  cache : SearchCache
  flushes : List (List String)
  events : List Event
deriving Inhabited

/-- `add_songs_batch` (lines 376-383): the raw `yt.add_playlist_items` call
wrapped by `retry_on_failure()`.  Returns the exception that escapes the
wrapper (if any) and the backoff sleeps performed. -/
def add_songs_batch (env : Env) (ids : List String) : Option PyExc × List Nat :=
  let r := retry_on_failure 3 2
    (fun _ => (env.addOutcome ids).map (fun _ => ()) |>.mapError PyExc.err)
  (match r.1 with
   | some (.error e) => some e
   | _ => none, r.2)

/-- Lines 478-487, the body of `for vid in batch` on the batch-failure path:
count the id as failed and, when some song of the playlist carries this id in
its `videoId` field, append a failure entry built from the first such song. -/
def failAccum (songs : List Song) (msg : String) (acc : RunState) (vid : String) :
    RunState :=
  { acc with
    failed := acc.failed + 1,
    failed_songs := acc.failed_songs ++
      (match songs.find? (fun s => s.videoId == vid) with
       | some ms => [{ row := ms.row_num, title := ms.title, artists := ms.artists,
                       error := msg }]
       | none => []) }

/-- Lines 461-488: submit the accumulated batch through `add_songs_batch`,
classify the outcome by its message text, update the counters, reset the
batch, and sleep one second after a successful submission (line 467). -/
def doFlush (env : Env) (songs : List Song) (st : RunState) : RunState :=
  let b := st.batch
  let r := add_songs_batch env b
  let sleepEvs := r.2.map Event.sleep
  match r.1 with
  | none =>
      { st with successful := st.successful + b.length,
                batch := [], flushes := st.flushes ++ [b],
                events := st.events ++ sleepEvs ++ [.addItems b true, .sleep 1] }
  | some e =>
      let msg := excMsg e
      if containsSub msg "STATUS_SUCCEEDED" then
        { st with successful := st.successful + b.length,
                  batch := [], flushes := st.flushes ++ [b],
                  events := st.events ++ sleepEvs ++ [.addItems b false] }
      else if containsSub (pyLower msg) "already" || containsSub (pyLower msg) "duplicate" then
        { st with skipped := st.skipped + b.length,
                  batch := [], flushes := st.flushes ++ [b],
                  events := st.events ++ sleepEvs ++ [.addItems b false] }
      else
        b.foldl (failAccum songs msg)
          { st with batch := [], flushes := st.flushes ++ [b],
                    events := st.events ++ sleepEvs ++ [.addItems b false] }

/-- The `except` handler of the per-song loop (lines 497-506). -/
def recordFail (st : RunState) (s : Song) (msg : String) : RunState :=
  { st with failed := st.failed + 1,
            failed_songs := st.failed_songs ++
              [{ row := s.row_num, title := s.title, artists := s.artists, error := msg }] }

/-- Lines 458-461: append the resolved id to the batch and flush when the
batch holds at least `batch_size = 20` ids or this is the last song. -/
def pushAndMaybeFlush (env : Env) (songs : List Song) (st : RunState)
    (vid : String) (isLast : Bool) : RunState :=
  let st1 := { st with batch := st.batch ++ [vid] }
  if 20 ≤ st1.batch.length ∨ isLast then doFlush env songs st1 else st1

/-- The per-song loop of lines 440-506.  `songs` is the full list (consulted
by the failure-entry lookup); the second list argument is the remaining
suffix, so Python's `i == len(songs)` test is the emptiness of its tail.
A song with an empty `videoId` and `search_needed` set is searched (the
`searched` counter moves before the found/not-found test, line 449); an empty
`videoId` without `search_needed` raises `No video ID available`.  A raise
skips the flush test entirely, which is what loses a pending batch when the
last song fails. -/
def runSongs (env : Env) (songs : List Song) : RunState → List Song → RunState
  | st, [] => st
  | st, s :: rest =>
      if s.videoId == "" && s.search_needed then
        let r := search_youtube_music env.searchResults st.cache s.title s.artists
        let st1 :=
          { st with
            cache := r.snd.fst,
            searched := st.searched + 1,
            events := st.events ++
              (if r.snd.snd == 1 then
                 [Event.searchRemote (normalize_for_search s.title s.artists)]
               else []) }
        if (r.fst.getD "") == "" then
          runSongs env songs (recordFail st1 s "Song not found in search") rest
        else
          runSongs env songs (pushAndMaybeFlush env songs st1 (r.fst.getD "") rest.isEmpty) rest
      else if s.videoId == "" then
        runSongs env songs (recordFail st s "No video ID available") rest
      else
        runSongs env songs (pushAndMaybeFlush env songs st s.videoId rest.isEmpty) rest

structure ImportResult where
  retOk : Bool
  playlist_id : String
  state : RunState

/-- The playlist-title match of lines 407-409: case-insensitive,
whitespace-trimmed exact equality. -/
def titleMatches (target : String) (pl : LibPlaylist) : Bool :=
  pyLower (pyStrip pl.title) == pyLower (pyStrip target)

/-- Lines 398-428 of `import_playlist`: in append mode the library is listed
and the first title-match reused (lines 402-415); a listing failure is caught
and treated as no match; with no usable id (`if not playlist_id`) a playlist
is created (lines 418-428).  Returns the playlist id used and the setup
events. -/
def setupPlaylist (env : Env) (playlist_name : String) (append : Bool) :
    String × List Event :=
  let lookupEvs : List Event := if append then [.listPlaylists] else []
  let found : Option String :=
    if append then
      match env.library with
      | some pls => (pls.find? (titleMatches playlist_name)).map (fun pl => pl.playlistId)
      | none => none
    else none
  match found with
  | some id =>
      if id == "" then (env.createdId, lookupEvs ++ [Event.createPlaylist playlist_name])
      else (id, lookupEvs)
  | none => (env.createdId, lookupEvs ++ [Event.createPlaylist playlist_name])

/-- `import_playlist(yt, playlist_name, playlist_data, append, privacy)`,
lines 385-529: playlist lookup/creation followed by the per-song loop.
`cache0` is the content of the module-global `SEARCH_CACHE` when the call
starts. -/
def import_playlist (env : Env) (playlist_name : String) (songs : List Song)
    (append : Bool) (cache0 : SearchCache) : ImportResult :=
  let setup := setupPlaylist env playlist_name append
  let st0 : RunState :=
    { successful := 0, failed := 0, searched := 0, skipped := 0,
      failed_songs := [], batch := [], cache := cache0, flushes := [],
      events := setup.2 }
  { retOk := true, playlist_id := setup.1, state := runSongs env songs st0 songs }

/-! ## Derived notions used by the theorems -/

/-- The failure entry the batch-failure loop produces for one id: the first
song carrying that id in its `videoId` field, or nothing. -/
def matchingEntry (songs : List Song) (msg : String) (vid : String) : List FailEntry :=
  match songs.find? (fun s => s.videoId == vid) with
  | some ms => [{ row := ms.row_num, title := ms.title, artists := ms.artists, error := msg }]
  | none => []

/-- The message of the `NameError` that every failing remote call surfaces as. -/
def nameErrMsg : String := excMsg (PyExc.nameError "requests")

/-- How the song loop groups a stream of resolved ids into submitted batches:
same flush condition as the loop, and an exhausted stream drops whatever is
left in the accumulator without flushing it (the accumulator is only flushed
from inside an iteration). -/
def chunkIds : List String → List String → List (List String)
  | _, [] => []
  | acc, x :: rest =>
      let acc2 := acc ++ [x]
      if 20 ≤ acc2.length ∨ rest.isEmpty then acc2 :: chunkIds [] rest
      else chunkIds acc2 rest

/-- The batch sizes produced from a current batch of `k` ids and `n` songs
still to come. -/
def batchSizes : Nat → Nat → List Nat
  | _, 0 => []
  | k, n + 1 => if 20 ≤ k + 1 ∨ n = 0 then (k + 1) :: batchSizes 0 n else batchSizes (k + 1) n

/-- Number of `createPlaylist` events in a trace. -/
def countCreates (evs : List Event) : Nat :=
  evs.countP (fun e => match e with | .createPlaylist _ => true | _ => false)

/-- Number of `addItems` events in a trace. -/
def countAdds (evs : List Event) : Nat :=
  evs.countP (fun e => match e with | .addItems _ _ => true | _ => false)

/-- Number of `sleep` events in a trace. -/
def countSleeps (evs : List Event) : Nat :=
  evs.countP (fun e => match e with | .sleep _ => true | _ => false)

/-- What must follow an `addItems` event with outcome `ok` for the trace to
be well paced: a one-second sleep after a success, no sleep after a failure. -/
def addGuard (ok : Bool) (rest : List Event) : Bool :=
  if ok then
    match rest with
    | .sleep s :: _ => s == 1
    | _ => false
  else
    match rest with
    | .sleep _ :: _ => false
    | _ => true

/-- Pacing discipline of a trace: every successful `addItems` is immediately
followed by a one-second sleep, and no sleep immediately follows a failed
`addItems`. -/
def pacedB : List Event → Bool
  | [] => true
  | .addItems _ ok :: rest => addGuard ok rest && pacedB rest
  | _ :: rest => pacedB rest

/-- Whether a trace starts with a sleep event. -/
def headIsSleep : List Event → Bool
  | .sleep _ :: _ => true
  | _ => false

/-- The selection policy exactly as the specification words it: first a pass
preferring a result whose title contains the casefolded track title, else a
pass preferring a result whose artist list contains the casefolded artist,
else the first returned result.  Stated for comparison with the code's
single-pass scan. -/
def rankSpec (title artist : String) (results : List SearchResult) : Option SearchResult :=
  match results.find? (titleRule (pyLower title)) with
  | some r => some r
  | none =>
      match results.find? (artistRule (pyLower artist)) with
      | some r => some r
      | none => results.head?

/-- `v` is an 11-character identifier segment of `url` immediately following
a `v=` or `youtu.be/` marker. -/
def idSegmentOf (url v : String) : Prop :=
  v.length = 11 ∧ v.data.all isIdChar = true ∧
  ∃ pre post, url.data = pre ++ "v=".data ++ v.data ++ post ∨
              url.data = pre ++ "youtu.be/".data ++ v.data ++ post

/-! ## Concrete fixtures used by the claim theorems -/

/-- An adapter whose add-items call always succeeds. -/
def okAdd : List String → Except PyError Unit := fun _ => .ok ()

/-- An adapter whose add-items call always fails with an ordinary server error. -/
def failAdd : List String → Except PyError Unit := fun _ => .error ⟨false, none, "boom"⟩

/-- A search backend that never finds anything. -/
def noResults : String → List SearchResult := fun _ => []

/-- A search backend returning one matching hit for every query. -/
def hitSearch : String → List SearchResult :=
  fun _ => [⟨some "hit00000001", "Song A", ["Band X"]⟩]

def env1 : Env := ⟨noResults, okAdd, some [], "PL1"⟩

/-- A job whose first track carries an id and whose last track is empty. -/
def c1songs : List Song :=
  [⟨"aaaaaaaaaaa", "T1", "A1", false, some 2⟩, ⟨"", "", "", false, some 3⟩]

def env2 : Env := ⟨hitSearch, okAdd, some [], "PL1"⟩

/-- The Road Trip job: an explicit 11-character id, a title/artist pair that
needs searching, and an empty descriptor. -/
def c2songs : List Song :=
  [⟨"abc12345678", "", "", false, some 2⟩,
   ⟨"", "Song A", "Band X", true, some 3⟩,
   ⟨"", "", "", false, some 4⟩]

/-- An operation that fails with a retryable network error on the first two
attempts and succeeds on the third. -/
def c3op : Nat → Except PyExc Nat := fun attempt =>
  if attempt ≤ 2 then .error (.err ⟨true, none, "connection reset"⟩) else .ok 42

def env9 : Env := ⟨noResults, failAdd, some [], "PL1"⟩

/-- Twenty-one resolvable tracks: the first flush happens when the batch
reaches twenty, the second on the final track. -/
def c9songs : List Song :=
  List.replicate 20 ⟨"aaaaaaaaaaa", "T", "A", false, none⟩ ++
    [⟨"bbbbbbbbbbb", "T2", "A2", false, none⟩]

def env10 : Env := ⟨fun _ => [⟨some "sssssssssss", "S2", ["A2"]⟩], failAdd, some [], "PL1"⟩

/-- One track carrying its id directly and one resolved through search. -/
def c10songs : List Song :=
  [⟨"vvvvvvvvvvv", "T", "A", false, some 2⟩, ⟨"", "S2", "A2", true, some 3⟩]

/-- A descriptor with an explicit id (surrounded by stray whitespace). -/
def dA : TrackDescriptor := ⟨" abc12345678 ", "", "x", "y"⟩

/-- A descriptor resolved from its watch URL. -/
def dB : TrackDescriptor := ⟨"", "https://www.youtube.com/watch?v=dQw4w9WgXcQ", "t", "a"⟩

/-- A descriptor whose URL matches nothing but whose title is searchable. -/
def dC : TrackDescriptor := ⟨"", "nope", "Song A", "Band X"⟩

/-- A descriptor with no identifier and no searchable text. -/
def dD : TrackDescriptor := ⟨"", "", " ", ""⟩

/-- A running state holding one batched id that no song list will match. -/
def stW : RunState := ⟨0, 0, 0, 0, [], ["xyzxyzxyzxy"], [], [], []⟩

/-- Two search results: the first matches only by artist, the second only by
title. -/
def c6results : List SearchResult :=
  [⟨some "v1", "other", ["band"]⟩, ⟨some "v2", "my song", []⟩]

/-- Forty-five tracks that all carry resolved identifiers. -/
def c8songs : List Song := List.replicate 45 ⟨"ccccccccccc", "T", "A", false, none⟩

/-- A library holding one playlist whose stored title differs from the
requested name only by case and surrounding whitespace. -/
def c7lib : List LibPlaylist := [⟨"PL9", " My Mix "⟩]

def env7 : Env := ⟨noResults, okAdd, some c7lib, "PLNEW"⟩

/-! ## Structural lemmas about the embedded controller -/

/-- Every failing remote add-items call escapes the retry wrapper as the
`requests` `NameError`, after zero retries and zero backoff sleeps. -/
theorem add_songs_batch_eq (env : Env) (ids : List String) :
    add_songs_batch env ids =
      ((match env.addOutcome ids with
        | .ok _ => none
        | .error _ => some (PyExc.nameError "requests")), []) := by
  cases h : env.addOutcome ids <;>
    simp [add_songs_batch, retry_on_failure, retryGo, classifyRetryable, h,
          Except.map, Except.mapError]

theorem nameErr_no_status :
    containsSub (excMsg (PyExc.nameError "requests")) "STATUS_SUCCEEDED" = false := by decide

theorem nameErr_no_already :
    containsSub (pyLower (excMsg (PyExc.nameError "requests"))) "already" = false := by decide

theorem nameErr_no_duplicate :
    containsSub (pyLower (excMsg (PyExc.nameError "requests"))) "duplicate" = false := by decide

/-- The per-id failure loop touches only `failed` and `failed_songs`. -/
theorem foldl_failAccum_core (songs : List Song) (msg : String) :
    ∀ (b : List String) (st : RunState),
      (b.foldl (failAccum songs msg) st).batch = st.batch ∧
      (b.foldl (failAccum songs msg) st).flushes = st.flushes ∧
      (b.foldl (failAccum songs msg) st).events = st.events ∧
      (b.foldl (failAccum songs msg) st).successful = st.successful ∧
      (b.foldl (failAccum songs msg) st).skipped = st.skipped ∧
      (b.foldl (failAccum songs msg) st).searched = st.searched ∧
      (b.foldl (failAccum songs msg) st).cache = st.cache
  | [], st => by simp
  | x :: b, st => by
      simp only [List.foldl_cons]
      simpa [failAccum] using foldl_failAccum_core songs msg b (failAccum songs msg st x)

/-- The per-id failure loop counts every id of the batch as failed. -/
theorem foldl_failAccum_failed (songs : List Song) (msg : String) :
    ∀ (b : List String) (st : RunState),
      (b.foldl (failAccum songs msg) st).failed = st.failed + b.length
  | [], st => by simp
  | x :: b, st => by
      simp only [List.foldl_cons, List.length_cons]
      rw [foldl_failAccum_failed songs msg b]
      show (failAccum songs msg st x).failed + b.length = st.failed + (b.length + 1)
      simp [failAccum]
      omega

/-- The per-id failure loop appends exactly the entries of the first songs
carrying each id. -/
theorem foldl_failAccum_entries (songs : List Song) (msg : String) :
    ∀ (b : List String) (st : RunState),
      (b.foldl (failAccum songs msg) st).failed_songs
        = st.failed_songs ++ (b.map (matchingEntry songs msg)).flatten
  | [], st => by simp
  | x :: b, st => by
      simp only [List.foldl_cons, List.map_cons, List.flatten_cons]
      rw [foldl_failAccum_entries songs msg b]
      show (failAccum songs msg st x).failed_songs ++ _ = _
      simp [failAccum, matchingEntry, List.append_assoc]

/-- How one flush behaves, after resolving the retry wrapper and the message
sniffing: a success counts the batch as succeeded and sleeps one second; any
failure surfaces as the `NameError`, whose text matches none of the
`STATUS_SUCCEEDED` / `already` / `duplicate` patterns, so the whole batch is
counted failed through the per-id loop.  The batch resets and the flushed
batch is recorded either way. -/
theorem doFlush_eq (env : Env) (songs : List Song) (st : RunState) :
    doFlush env songs st =
      (match env.addOutcome st.batch with
       | .ok _ =>
           { st with successful := st.successful + st.batch.length,
                     batch := [], flushes := st.flushes ++ [st.batch],
                     events := st.events ++ [.addItems st.batch true, .sleep 1] }
       | .error _ =>
           st.batch.foldl (failAccum songs nameErrMsg)
             { st with batch := [], flushes := st.flushes ++ [st.batch],
                       events := st.events ++ [.addItems st.batch false] }) := by
  cases h : env.addOutcome st.batch <;>
    simp [doFlush, add_songs_batch_eq, h, nameErr_no_status, nameErr_no_already,
          nameErr_no_duplicate, nameErrMsg]

theorem doFlush_batch (env : Env) (songs : List Song) (st : RunState) :
    (doFlush env songs st).batch = [] := by
  rw [doFlush_eq]
  cases env.addOutcome st.batch with
  | ok u => rfl
  | error e =>
      exact (foldl_failAccum_core songs nameErrMsg st.batch
        { st with batch := [], flushes := st.flushes ++ [st.batch],
                  events := st.events ++ [.addItems st.batch false] }).1

theorem doFlush_flushes (env : Env) (songs : List Song) (st : RunState) :
    (doFlush env songs st).flushes = st.flushes ++ [st.batch] := by
  rw [doFlush_eq]
  cases env.addOutcome st.batch with
  | ok u => rfl
  | error e =>
      exact (foldl_failAccum_core songs nameErrMsg st.batch
        { st with batch := [], flushes := st.flushes ++ [st.batch],
                  events := st.events ++ [.addItems st.batch false] }).2.1

theorem import_playlist_state (env : Env) (name : String) (songs : List Song)
    (append : Bool) (cache0 : SearchCache) :
    (import_playlist env name songs append cache0).state =
      runSongs env songs
        { successful := 0, failed := 0, searched := 0, skipped := 0,
          failed_songs := [], batch := [], cache := cache0, flushes := [],
          events := (setupPlaylist env name append).2 } songs := rfl

theorem import_playlist_id (env : Env) (name : String) (songs : List Song)
    (append : Bool) (cache0 : SearchCache) :
    (import_playlist env name songs append cache0).playlist_id =
      (setupPlaylist env name append).1 := rfl

theorem isEmpty_map {α β : Type} (f : α → β) (l : List α) :
    (l.map f).isEmpty = l.isEmpty := by
  cases l <;> rfl

/-- Concatenating the groups restores the stream, provided the stream is
nonempty (an empty stream drops the accumulator, which is how the code loses
a pending batch). -/
theorem chunkIds_flatten : ∀ (l acc : List String), l ≠ [] →
    (chunkIds acc l).flatten = acc ++ l
  | [], _, h => absurd rfl h
  | x :: rest, acc, _ => by
      by_cases hr : rest = []
      · subst hr
        simp [chunkIds]
      · by_cases hb : 20 ≤ (acc ++ [x]).length ∨ rest.isEmpty = true
        · show (if 20 ≤ (acc ++ [x]).length ∨ rest.isEmpty = true then
                  (acc ++ [x]) :: chunkIds [] rest
                else chunkIds (acc ++ [x]) rest).flatten = acc ++ x :: rest
          rw [if_pos hb, List.flatten_cons, chunkIds_flatten rest [] hr]
          simp
        · show (if 20 ≤ (acc ++ [x]).length ∨ rest.isEmpty = true then
                  (acc ++ [x]) :: chunkIds [] rest
                else chunkIds (acc ++ [x]) rest).flatten = acc ++ x :: rest
          rw [if_neg hb, chunkIds_flatten rest (acc ++ [x]) hr]
          simp

/-- The group sizes depend only on the accumulator length and the stream
length. -/
theorem chunkIds_lengths : ∀ (l acc : List String),
    (chunkIds acc l).map List.length = batchSizes acc.length l.length
  | [], _ => rfl
  | x :: rest, acc => by
      have hcond : (20 ≤ (acc ++ [x]).length ∨ rest.isEmpty = true) ↔
          (20 ≤ acc.length + 1 ∨ rest.length = 0) := by
        simp [List.length_append, List.isEmpty_iff, List.length_eq_zero]
      show (if 20 ≤ (acc ++ [x]).length ∨ rest.isEmpty = true then
              (acc ++ [x]) :: chunkIds [] rest
            else chunkIds (acc ++ [x]) rest).map List.length =
          batchSizes acc.length (rest.length + 1)
      by_cases h : 20 ≤ acc.length + 1 ∨ rest.length = 0
      · rw [if_pos (hcond.mpr h), List.map_cons, chunkIds_lengths rest []]
        show (acc ++ [x]).length :: batchSizes 0 rest.length =
          batchSizes acc.length (rest.length + 1)
        rw [batchSizes, if_pos h]
        simp
      · rw [if_neg (fun hc => h (hcond.mp hc)), chunkIds_lengths rest (acc ++ [x])]
        rw [batchSizes, if_neg h]
        simp

theorem batchSizes_45 : batchSizes 0 45 = [20, 20, 5] := by decide

/-- When every song of the remaining stream carries a resolved id, the song
loop flushes exactly the groups of `chunkIds`, in order, whatever the add
outcomes are. -/
theorem runSongs_flushes (env : Env) (songs : List Song) :
    ∀ (l : List Song) (st : RunState), (∀ s ∈ l, s.videoId ≠ "") →
      (runSongs env songs st l).flushes =
        st.flushes ++ chunkIds st.batch (l.map Song.videoId)
  | [], st, _ => by simp [runSongs, chunkIds]
  | s :: rest, st, h => by
      have hs : s.videoId ≠ "" := h s (List.mem_cons_self s rest)
      have hrest : ∀ x ∈ rest, x.videoId ≠ "" := fun x hx => h x (List.mem_cons_of_mem s hx)
      have hbeq : (s.videoId == "") = false := beq_eq_false_iff_ne.mpr hs
      simp only [runSongs, hbeq, Bool.false_and, Bool.false_eq_true, if_false]
      rw [pushAndMaybeFlush]
      simp only [List.map_cons]
      by_cases hc : 20 ≤ (st.batch ++ [s.videoId]).length ∨ rest.isEmpty = true
      · rw [if_pos hc,
           runSongs_flushes env songs rest _ hrest, doFlush_flushes, doFlush_batch]
        have hc2 : 20 ≤ (st.batch ++ [s.videoId]).length ∨ (rest.map Song.videoId).isEmpty = true := by
          rwa [isEmpty_map]
        show _ = st.flushes ++ (if 20 ≤ (st.batch ++ [s.videoId]).length ∨
            (rest.map Song.videoId).isEmpty = true then
              (st.batch ++ [s.videoId]) :: chunkIds [] (rest.map Song.videoId)
            else chunkIds (st.batch ++ [s.videoId]) (rest.map Song.videoId))
        rw [if_pos hc2]
        simp
      · rw [if_neg hc, runSongs_flushes env songs rest _ hrest]
        have hc2 : ¬ (20 ≤ (st.batch ++ [s.videoId]).length ∨
            (rest.map Song.videoId).isEmpty = true) := by
          rwa [isEmpty_map]
        show _ = st.flushes ++ (if 20 ≤ (st.batch ++ [s.videoId]).length ∨
            (rest.map Song.videoId).isEmpty = true then
              (st.batch ++ [s.videoId]) :: chunkIds [] (rest.map Song.videoId)
            else chunkIds (st.batch ++ [s.videoId]) (rest.map Song.videoId))
        rw [if_neg hc2]

theorem countCreates_append (xs ys : List Event) :
    countCreates (xs ++ ys) = countCreates xs + countCreates ys :=
  List.countP_append _ _ _

theorem countCreates_searchRemote (q : String) :
    countCreates [Event.searchRemote q] = 0 := rfl

theorem countCreates_addTrue (b : List String) :
    countCreates [Event.addItems b true, Event.sleep 1] = 0 := rfl

theorem countCreates_addFalse (b : List String) :
    countCreates [Event.addItems b false] = 0 := rfl

theorem doFlush_countCreates (env : Env) (songs : List Song) (st : RunState) :
    countCreates (doFlush env songs st).events = countCreates st.events := by
  rw [doFlush_eq]
  cases env.addOutcome st.batch with
  | ok u =>
      show countCreates (st.events ++ [.addItems st.batch true, .sleep 1]) = _
      rw [countCreates_append, countCreates_addTrue, Nat.add_zero]
  | error e =>
      have h := (foldl_failAccum_core songs nameErrMsg st.batch
        { st with batch := [], flushes := st.flushes ++ [st.batch],
                  events := st.events ++ [.addItems st.batch false] }).2.2.1
      rw [h]
      show countCreates (st.events ++ [.addItems st.batch false]) = _
      rw [countCreates_append, countCreates_addFalse, Nat.add_zero]

theorem pushAndMaybeFlush_countCreates (env : Env) (songs : List Song)
    (st : RunState) (vid : String) (isLast : Bool) :
    countCreates (pushAndMaybeFlush env songs st vid isLast).events = countCreates st.events := by
  rw [pushAndMaybeFlush]
  split
  · rw [doFlush_countCreates]
  · rfl

theorem countCreates_optSearch (evs : List Event) (b : Bool) (q : String) :
    countCreates (evs ++ (if b then [Event.searchRemote q] else [])) = countCreates evs := by
  cases b
  · simp [countCreates_append]
  · rw [if_pos rfl, countCreates_append, countCreates_searchRemote, Nat.add_zero]

/-- The song loop never creates a playlist: creation happens only in the
setup phase. -/
theorem runSongs_countCreates (env : Env) (songs : List Song) :
    ∀ (l : List Song) (st : RunState),
      countCreates (runSongs env songs st l).events = countCreates st.events
  | [], _ => rfl
  | s :: rest, st => by
      simp only [runSongs]
      split
      · split
        · rw [runSongs_countCreates env songs rest]
          exact countCreates_optSearch st.events _ _
        · rw [runSongs_countCreates env songs rest, pushAndMaybeFlush_countCreates]
          exact countCreates_optSearch st.events _ _
      · split
        · rw [runSongs_countCreates env songs rest]
          rfl
        · rw [runSongs_countCreates env songs rest, pushAndMaybeFlush_countCreates]

theorem addGuard_cons_append (ok : Bool) (f : Event) (xs ys : List Event) :
    addGuard ok ((f :: xs) ++ ys) = addGuard ok (f :: xs) := by
  cases ok <;> cases f <;> rfl

theorem addGuard_nil_false (ys : List Event) (hh : headIsSleep ys = false) :
    addGuard false ys = true := by
  cases ys with
  | nil => rfl
  | cons g ys' => cases g <;> first | rfl | exact absurd hh (by simp [headIsSleep])

/-- Appending a well-paced continuation that does not start with a sleep
keeps a well-paced trace well paced. -/
theorem pacedB_append : ∀ (xs ys : List Event), pacedB xs = true → pacedB ys = true →
    headIsSleep ys = false → pacedB (xs ++ ys) = true
  | [], ys, _, hy, _ => hy
  | .addItems b ok :: xs', ys, hx, hy, hh => by
      have hx' : addGuard ok xs' = true ∧ pacedB xs' = true := by
        simpa [pacedB, Bool.and_eq_true] using hx
      have hrec := pacedB_append xs' ys hx'.2 hy hh
      show (addGuard ok (xs' ++ ys) && pacedB (xs' ++ ys)) = true
      rw [hrec, Bool.and_true]
      cases xs' with
      | nil =>
          cases ok with
          | true => exact absurd hx'.1 (by simp [addGuard])
          | false => exact addGuard_nil_false ys hh
      | cons f xs'' =>
          rw [addGuard_cons_append]
          exact hx'.1
  | .listPlaylists :: xs', ys, hx, hy, hh => pacedB_append xs' ys hx hy hh
  | .createPlaylist n :: xs', ys, hx, hy, hh => pacedB_append xs' ys hx hy hh
  | .searchRemote q :: xs', ys, hx, hy, hh => pacedB_append xs' ys hx hy hh
  | .sleep s :: xs', ys, hx, hy, hh => pacedB_append xs' ys hx hy hh

theorem doFlush_pacedB (env : Env) (songs : List Song) (st : RunState)
    (h : pacedB st.events = true) :
    pacedB (doFlush env songs st).events = true := by
  rw [doFlush_eq]
  cases env.addOutcome st.batch with
  | ok u =>
      show pacedB (st.events ++ [.addItems st.batch true, .sleep 1]) = true
      exact pacedB_append _ _ h rfl rfl
  | error e =>
      rw [(foldl_failAccum_core songs nameErrMsg st.batch
        { st with batch := [], flushes := st.flushes ++ [st.batch],
                  events := st.events ++ [.addItems st.batch false] }).2.2.1]
      show pacedB (st.events ++ [.addItems st.batch false]) = true
      exact pacedB_append _ _ h rfl rfl

theorem pushAndMaybeFlush_pacedB (env : Env) (songs : List Song) (st : RunState)
    (vid : String) (isLast : Bool) (h : pacedB st.events = true) :
    pacedB (pushAndMaybeFlush env songs st vid isLast).events = true := by
  rw [pushAndMaybeFlush]
  split
  · exact doFlush_pacedB env songs _ h
  · exact h

theorem pacedB_optSearch (evs : List Event) (c : Bool) (q : String)
    (h : pacedB evs = true) :
    pacedB (evs ++ (if c then [Event.searchRemote q] else [])) = true := by
  cases c
  · simpa using h
  · exact pacedB_append _ _ h rfl rfl

/-- The song loop preserves the pacing discipline of the trace. -/
theorem runSongs_pacedB (env : Env) (songs : List Song) :
    ∀ (l : List Song) (st : RunState), pacedB st.events = true →
      pacedB (runSongs env songs st l).events = true
  | [], _, h => h
  | s :: rest, st, h => by
      simp only [runSongs]
      split
      · split
        · exact runSongs_pacedB env songs rest _ (pacedB_optSearch st.events _ _ h)
        · exact runSongs_pacedB env songs rest _
            (pushAndMaybeFlush_pacedB env songs _ _ _ (pacedB_optSearch st.events _ _ h))
      · split
        · exact runSongs_pacedB env songs rest _ h
        · exact runSongs_pacedB env songs rest _ (pushAndMaybeFlush_pacedB env songs st _ _ h)

theorem lookup_cons_self (q : String) (v : Option String) (c : SearchCache) :
    List.lookup q ((q, v) :: c) = some v := by
  simp [List.lookup]

/-- The break-on-first-match scan of lines 209-217 is the first result
satisfying the title rule or the artist rule. -/
theorem pickBest_eq_find (nt na : String) : ∀ l : List SearchResult,
    pickBest nt na l = l.find? (fun r => titleRule nt r || artistRule na r)
  | [] => rfl
  | r :: rest => by
      rw [pickBest, List.find?_cons]
      by_cases hc : (titleRule nt r || artistRule na r) = true
      · simp [hc]
      · have hcf : (titleRule nt r || artistRule na r) = false := by simpa using hc
        simp [hcf, pickBest_eq_find nt na rest]

/-- `search_youtube_music` on a nonempty query missing from the cache: one
remote call, and the outcome — a ranked id or the `not found` marker — is
stored in the cache under the query before returning. -/
theorem search_miss_eq (f : String → List SearchResult) (cache : SearchCache)
    (t a : String)
    (hq : normalize_for_search t a ≠ "")
    (hc : cache.lookup (normalize_for_search t a) = none) :
    search_youtube_music f cache t a =
      (if (f (normalize_for_search t a)).isEmpty then
         (none, (normalize_for_search t a, none) :: cache, 1)
       else
         (((pickBest (pyLower t) (pyLower a) (f (normalize_for_search t a))).getD
             (f (normalize_for_search t a)).headI).videoId,
          (normalize_for_search t a,
           ((pickBest (pyLower t) (pyLower a) (f (normalize_for_search t a))).getD
             (f (normalize_for_search t a)).headI).videoId) :: cache, 1)) := by
  have hb : (normalize_for_search t a == "") = false := beq_eq_false_iff_ne.mpr hq
  simp only [search_youtube_music, hb, Bool.false_eq_true, if_false, hc]

theorem leadsWith_eq : ∀ (p l : List Char), leadsWith p l = true → l = p ++ l.drop p.length
  | [], l, _ => by simp
  | a :: as, [], h => by simp [leadsWith] at h
  | a :: as, b :: bs, h => by
      have h' : a = b ∧ leadsWith as bs = true := by simpa [leadsWith] using h
      obtain ⟨h1, h2⟩ := h'
      subst h1
      have hrec := leadsWith_eq as bs h2
      simp only [List.length_cons, List.drop_succ_cons, List.cons_append, List.cons.injEq]
      exact ⟨trivial, hrec⟩

theorem grab11_spec (cs v : List Char) (h : grab11 cs = some v) :
    v.length = 11 ∧ v.all isIdChar = true ∧ cs = v ++ cs.drop 11 := by
  simp only [grab11] at h
  split at h
  · obtain rfl : cs.take 11 = v := by simpa using h
    rename_i hcond
    have hc : (cs.take 11).length = 11 ∧ (cs.take 11).all isIdChar = true := by
      simpa [Bool.and_eq_true] using hcond
    exact ⟨hc.1, hc.2, (List.take_append_drop 11 cs).symm⟩
  · exact absurd h (by simp)

theorem extractFrom_spec : ∀ (cs v : List Char), extractFrom cs = some v →
    v.length = 11 ∧ v.all isIdChar = true ∧
    (∃ pre post, cs = pre ++ "v=".data ++ v ++ post ∨
                 cs = pre ++ "youtu.be/".data ++ v ++ post)
  | [], v, h => by simp [extractFrom] at h
  | c :: rest, v, h => by
      simp only [extractFrom] at h
      by_cases h1 : leadsWith "v=".data (c :: rest) = true
      · rw [if_pos h1] at h
        cases hg : grab11 ((c :: rest).drop 2) with
        | some w =>
            rw [hg] at h
            obtain rfl : w = v := by simpa using h
            obtain ⟨hlen, hall, hsplit⟩ := grab11_spec _ _ hg
            have hpre : c :: rest = "v=".data ++ (c :: rest).drop 2 := by
              simpa using leadsWith_eq "v=".data (c :: rest) h1
            refine ⟨hlen, hall, [], ((c :: rest).drop 2).drop 11, Or.inl ?_⟩
            rw [List.nil_append]
            conv_lhs => rw [hpre, hsplit]
            simp [List.append_assoc]
        | none =>
            rw [hg] at h
            obtain ⟨hlen, hall, pre, post, hor⟩ := extractFrom_spec rest v (by simpa using h)
            refine ⟨hlen, hall, c :: pre, post, ?_⟩
            rcases hor with h' | h'
            · exact Or.inl (by simp [h', List.append_assoc])
            · exact Or.inr (by simp [h', List.append_assoc])
      · rw [if_neg h1] at h
        by_cases h2 : leadsWith "youtu.be/".data (c :: rest) = true
        · rw [if_pos h2] at h
          cases hg : grab11 ((c :: rest).drop 9) with
          | some w =>
              rw [hg] at h
              obtain rfl : w = v := by simpa using h
              obtain ⟨hlen, hall, hsplit⟩ := grab11_spec _ _ hg
              have hpre : c :: rest = "youtu.be/".data ++ (c :: rest).drop 9 := by
                simpa using leadsWith_eq "youtu.be/".data (c :: rest) h2
              refine ⟨hlen, hall, [], ((c :: rest).drop 9).drop 11, Or.inr ?_⟩
              rw [List.nil_append]
              conv_lhs => rw [hpre, hsplit]
              simp [List.append_assoc]
          | none =>
              rw [hg] at h
              obtain ⟨hlen, hall, pre, post, hor⟩ := extractFrom_spec rest v (by simpa using h)
              refine ⟨hlen, hall, c :: pre, post, ?_⟩
              rcases hor with h' | h'
              · exact Or.inl (by simp [h', List.append_assoc])
              · exact Or.inr (by simp [h', List.append_assoc])
        · rw [if_neg h2] at h
          obtain ⟨hlen, hall, pre, post, hor⟩ := extractFrom_spec rest v (by simpa using h)
          refine ⟨hlen, hall, c :: pre, post, ?_⟩
          rcases hor with h' | h'
          · exact Or.inl (by simp [h', List.append_assoc])
          · exact Or.inr (by simp [h', List.append_assoc])

/-! ## Claim theorems -/

/-- Claim C1.  The claim states that the final report partitions the job's
tracks, `succeeded + skippedDuplicate + failed = totalTracks`.  The code
violates this: the end-of-list flush test sits inside the per-song `try`, so
when the last song raises during resolution the pending batch is never
submitted and never counted.  On a two-track job whose first track carries an
id and whose last track is empty, the report counts one track out of two, no
batch is ever flushed, and the resolved id is still sitting in the dropped
batch. -/
theorem c1_partition_fails_on_trailing_failure :
    (import_playlist env1 "P" c1songs true []).state.successful +
      (import_playlist env1 "P" c1songs true []).state.skipped +
      (import_playlist env1 "P" c1songs true []).state.failed = 1 ∧
    c1songs.length = 2 ∧
    (import_playlist env1 "P" c1songs true []).state.flushes = [] ∧
    (import_playlist env1 "P" c1songs true []).state.batch = ["aaaaaaaaaaa"] := by
  refine ⟨rfl, rfl, rfl, rfl⟩

/-- Claim C2.  The Road Trip scenario: the claim (and the specification)
expect `succeeded = 2`, `failed = 1`, `searched = 1`.  The code resolves both
the direct and the searched track into the batch, but the empty final
descriptor raises before the end-of-list flush test, so the batch of two is
dropped: the report says `succeeded = 0`, `searched = 1`, `failed = 1`, and no
add-items call is ever made. -/
theorem c2_road_trip_scenario :
    (import_playlist env2 "Road Trip" c2songs true []).state.successful = 0 ∧
    (import_playlist env2 "Road Trip" c2songs true []).state.searched = 1 ∧
    (import_playlist env2 "Road Trip" c2songs true []).state.failed = 1 ∧
    (import_playlist env2 "Road Trip" c2songs true []).state.flushes = [] ∧
    (import_playlist env2 "Road Trip" c2songs true []).state.batch =
      ["abc12345678", "hit00000001"] := by
  refine ⟨rfl, rfl, rfl, rfl, rfl⟩

/-- Claim C3.  The claim describes sleep-and-retry on retryable failures and
propagation of the original failure otherwise.  The module never imports
`requests`, so the classification on line 67 raises
`NameError: name 'requests' is not defined` the moment any failure is
handled: an operation that fails retryably twice and would succeed on the
third attempt instead surfaces the `NameError` after zero sleeps.  With the
classification the docstring describes, the same operation returns the
success value after two sleeps of 1 and 2 seconds. -/
theorem c3_retry_wrapper_raises_nameerror :
    retry_on_failure 3 2 c3op = (some (.error (.nameError "requests")), []) ∧
    retryIntended 3 2 c3op = (some (.ok 42), [1, 2]) := by
  refine ⟨rfl, rfl⟩

/-- Claim C4.  Resolution priority per descriptor: a non-empty (stripped)
explicit identifier is used directly with no remote call; otherwise a URL
matching the extraction pattern yields exactly the 11-character identifier
segment following `v=` or the `youtu.be/` path, again with no remote call;
otherwise a non-empty title goes to search resolution; otherwise the
descriptor fails with no remote call. -/
theorem c4_resolution_priority (f : String → List SearchResult) (cache : SearchCache)
    (d : TrackDescriptor) :
    (pyStrip d.mediaId ≠ "" →
       resolveDescriptor f cache d = (some (pyStrip d.mediaId), .Direct, cache, 0)) ∧
    (pyStrip d.mediaId = "" → ∀ v, extractVideoId d.url = some v →
       resolveDescriptor f cache d = (some v, .UrlExtracted, cache, 0) ∧
       idSegmentOf d.url v) ∧
    (pyStrip d.mediaId = "" → extractVideoId d.url = none → pyStrip d.title ≠ "" →
       resolveDescriptor f cache d =
         ((search_youtube_music f cache (pyStrip d.title) (pyStrip d.artists)).fst,
          .Searched,
          (search_youtube_music f cache (pyStrip d.title) (pyStrip d.artists)).snd.fst,
          (search_youtube_music f cache (pyStrip d.title) (pyStrip d.artists)).snd.snd)) ∧
    (pyStrip d.mediaId = "" → extractVideoId d.url = none → pyStrip d.title = "" →
       resolveDescriptor f cache d = (none, .Unresolved, cache, 0)) := by
  refine ⟨?_, ?_, ?_, ?_⟩
  · intro hmed
    have hb : (pyStrip d.mediaId != "") = true := bne_iff_ne.mpr hmed
    simp [resolveDescriptor, hb]
  · intro hmed v hv
    have hb : (pyStrip d.mediaId != "") = false := by simp [hmed]
    have hu : d.url ≠ "" := by
      intro h0
      rw [h0, show extractVideoId "" = none from rfl] at hv
      exact Option.noConfusion hv
    have hub : (d.url != "") = true := bne_iff_ne.mpr hu
    obtain ⟨cs, hcs, hmk⟩ : ∃ cs, extractFrom d.url.data = some cs ∧ String.mk cs = v := by
      simpa [extractVideoId, Option.map_eq_some'] using hv
    refine ⟨?_, ?_⟩
    · simp [resolveDescriptor, hb, hub, hv]
    · subst hmk
      obtain ⟨hlen, hall, pre, post, hor⟩ := extractFrom_spec _ _ hcs
      exact ⟨hlen, hall, pre, post, hor⟩
  · intro hmed hext htitle
    have hb : (pyStrip d.mediaId != "") = false := by simp [hmed]
    have ht : (pyStrip d.title != "") = true := bne_iff_ne.mpr htitle
    by_cases hu : d.url = ""
    · simp [resolveDescriptor, hb, hu, ht]
    · have hub : (d.url != "") = true := bne_iff_ne.mpr hu
      simp [resolveDescriptor, hb, hub, hext, ht]
  · intro hmed hext htitle
    have hb : (pyStrip d.mediaId != "") = false := by simp [hmed]
    have ht : (pyStrip d.title != "") = false := by simp [htitle]
    by_cases hu : d.url = ""
    · simp [resolveDescriptor, hb, hu, ht]
    · have hub : (d.url != "") = true := bne_iff_ne.mpr hu
      simp [resolveDescriptor, hb, hub, hext, ht]

/-- Witness for C4 on one descriptor per resolution method. -/
theorem c4_resolution_priority_witness :
    pyStrip dA.mediaId ≠ "" ∧
    resolveDescriptor hitSearch [] dA = (some "abc12345678", .Direct, [], 0) ∧
    extractVideoId dB.url = some "dQw4w9WgXcQ" ∧
    resolveDescriptor hitSearch [] dB = (some "dQw4w9WgXcQ", .UrlExtracted, [], 0) ∧
    (resolveDescriptor hitSearch [] dC).snd.fst = Method.Searched ∧
    resolveDescriptor hitSearch [] dD = (none, .Unresolved, [], 0) := by
  refine ⟨by decide, ?_, by decide, ?_, ?_, ?_⟩
  · exact (c4_resolution_priority hitSearch [] dA).1 (by decide)
  · exact ((c4_resolution_priority hitSearch [] dB).2.1 (by decide) "dQw4w9WgXcQ" (by decide)).1
  · rw [(c4_resolution_priority hitSearch [] dC).2.2.1 (by decide) (by decide) (by decide)]
  · exact (c4_resolution_priority hitSearch [] dD).2.2.2 (by decide) (by decide) (by decide)

/-- Claim C5.  Two search resolutions whose inputs normalize to the same
nonempty query, the first starting from a cache without that query, issue
exactly one remote search call between them: the first call stores its
outcome (a resolved id or the `not found` marker alike) in the cache under
the normalized query before returning, and the second resolution is answered
from the cache — returning the same outcome — with no remote call. -/
theorem c5_search_cache_single_call (f : String → List SearchResult)
    (cache : SearchCache) (t1 a1 t2 a2 : String)
    (hsame : normalize_for_search t2 a2 = normalize_for_search t1 a1)
    (hq : normalize_for_search t1 a1 ≠ "")
    (hfresh : cache.lookup (normalize_for_search t1 a1) = none) :
    (search_youtube_music f cache t1 a1).snd.snd = 1 ∧
    (search_youtube_music f cache t1 a1).snd.fst.lookup (normalize_for_search t1 a1)
      = some (search_youtube_music f cache t1 a1).fst ∧
    (search_youtube_music f (search_youtube_music f cache t1 a1).snd.fst t2 a2).snd.snd
      = 0 ∧
    (search_youtube_music f (search_youtube_music f cache t1 a1).snd.fst t2 a2).fst
      = (search_youtube_music f cache t1 a1).fst := by
  have hb : (normalize_for_search t1 a1 == "") = false := beq_eq_false_iff_ne.mpr hq
  rw [search_miss_eq f cache t1 a1 hq hfresh]
  by_cases hres : (f (normalize_for_search t1 a1)).isEmpty = true
  · rw [if_pos hres]
    have h2 : search_youtube_music f ((normalize_for_search t1 a1, none) :: cache) t2 a2
        = (none, (normalize_for_search t1 a1, none) :: cache, 0) := by
      simp only [search_youtube_music, hsame, hb, Bool.false_eq_true, if_false,
        lookup_cons_self]
    exact ⟨rfl, lookup_cons_self _ _ _, by rw [h2], by rw [h2]⟩
  · rw [if_neg hres]
    have h2 : search_youtube_music f
        ((normalize_for_search t1 a1,
          ((pickBest (pyLower t1) (pyLower a1) (f (normalize_for_search t1 a1))).getD
            (f (normalize_for_search t1 a1)).headI).videoId) :: cache) t2 a2
        = (((pickBest (pyLower t1) (pyLower a1) (f (normalize_for_search t1 a1))).getD
            (f (normalize_for_search t1 a1)).headI).videoId,
           (normalize_for_search t1 a1,
            ((pickBest (pyLower t1) (pyLower a1) (f (normalize_for_search t1 a1))).getD
              (f (normalize_for_search t1 a1)).headI).videoId) :: cache, 0) := by
      simp only [search_youtube_music, hsame, hb, Bool.false_eq_true, if_false,
        lookup_cons_self]
    exact ⟨rfl, lookup_cons_self _ _ _, by rw [h2], by rw [h2]⟩

/-- Witness for C5: the raw inputs differ in internal whitespace but
normalize to the same query. -/
theorem c5_search_cache_single_call_witness :
    normalize_for_search "Song  A" "Band X" = normalize_for_search "Song A" "Band X" ∧
    normalize_for_search "Song A" "Band X" ≠ "" ∧
    (search_youtube_music hitSearch [] "Song A" "Band X").snd.snd = 1 ∧
    (search_youtube_music hitSearch
       (search_youtube_music hitSearch [] "Song A" "Band X").snd.fst
       "Song  A" "Band X").snd.snd = 0 ∧
    (search_youtube_music hitSearch
       (search_youtube_music hitSearch [] "Song A" "Band X").snd.fst
       "Song  A" "Band X").fst
      = (search_youtube_music hitSearch [] "Song A" "Band X").fst :=
  ⟨by decide, by decide,
   (c5_search_cache_single_call hitSearch [] "Song A" "Band X" "Song  A" "Band X"
      (by decide) (by decide) rfl).1,
   (c5_search_cache_single_call hitSearch [] "Song A" "Band X" "Song  A" "Band X"
      (by decide) (by decide) rfl).2.2.1,
   (c5_search_cache_single_call hitSearch [] "Song A" "Band X" "Song  A" "Band X"
      (by decide) (by decide) rfl).2.2.2⟩

/-- Claim C6, counterexample.  With results `[artist-match-only,
title-match-only]`, the claim's fixed-order policy prefers the result whose
title contains the track title (the second, id `v2`), but the code's
single-pass scan accepts the first result by its artist match and returns
`v1`. -/
theorem c6_ranking_counterexample :
    (search_youtube_music (fun _ => c6results) [] "song" "band").fst = some "v1" ∧
    rankSpec "song" "band" c6results = some ⟨some "v2", "my song", []⟩ ∧
    ("v1" : String) ≠ "v2" := by
  refine ⟨rfl, rfl, by decide⟩

/-- Claim C6, amended.  When the search returns a nonempty result list for a
nonempty uncached query, the results are scanned in returned order and the
first result satisfying either rule is selected — the title-substring rule
checked before the artist-substring rule on each result, each rule applying
only when its field is non-empty after casefolding — and if no result
satisfies either rule, the first returned result is taken; there is no
combined scoring. -/
theorem c6_ranking_single_scan (f : String → List SearchResult) (cache : SearchCache)
    (t a : String)
    (hq : normalize_for_search t a ≠ "")
    (hc : cache.lookup (normalize_for_search t a) = none)
    (hr : f (normalize_for_search t a) ≠ []) :
    (search_youtube_music f cache t a).fst =
      (((f (normalize_for_search t a)).find?
          (fun r => titleRule (pyLower t) r || artistRule (pyLower a) r)).getD
        ((f (normalize_for_search t a)).headI)).videoId := by
  rw [search_miss_eq f cache t a hq hc]
  have hres : (f (normalize_for_search t a)).isEmpty = false := by
    cases hcc : f (normalize_for_search t a) with
    | nil => exact absurd hcc hr
    | cons x xs => rfl
  simp only [hres, Bool.false_eq_true, if_false, pickBest_eq_find]

/-- Witness for C6's amended claim on the counterexample's result list. -/
theorem c6_ranking_single_scan_witness :
    normalize_for_search "song" "band" ≠ "" ∧
    c6results ≠ [] ∧
    (search_youtube_music (fun _ => c6results) [] "song" "band").fst =
      ((c6results.find?
          (fun r => titleRule (pyLower "song") r || artistRule (pyLower "band") r)).getD
        c6results.headI).videoId :=
  ⟨by decide, by decide,
   c6_ranking_single_scan (fun _ => c6results) [] "song" "band"
     (by decide) rfl (by decide)⟩

/-- Claim C8.  A job whose forty-five tracks all carry resolved identifiers
produces exactly three flushes, of sizes twenty, twenty and five, and the
concatenation of the flushed batches lists the identifiers in the tracks'
original order — whatever the add outcomes, the playlist lookup mode and the
starting cache. -/
theorem c8_batch_sizes_and_order (env : Env) (name : String) (songs : List Song)
    (append : Bool) (cache0 : SearchCache)
    (hlen : songs.length = 45)
    (hres : ∀ s ∈ songs, s.videoId ≠ "") :
    (import_playlist env name songs append cache0).state.flushes.map List.length
      = [20, 20, 5] ∧
    (import_playlist env name songs append cache0).state.flushes.flatten
      = songs.map Song.videoId := by
  rw [import_playlist_state, runSongs_flushes env songs songs _ hres]
  have hlen2 : (songs.map Song.videoId).length = 45 := by simp [hlen]
  constructor
  · show ([] ++ chunkIds [] (songs.map Song.videoId)).map List.length = [20, 20, 5]
    rw [List.nil_append, chunkIds_lengths, hlen2]
    exact batchSizes_45
  · show ([] ++ chunkIds [] (songs.map Song.videoId)).flatten = songs.map Song.videoId
    rw [List.nil_append, chunkIds_flatten (songs.map Song.videoId) []]
    · simp
    · exact List.ne_nil_of_length_pos (by omega)

set_option maxRecDepth 100000 in
/-- Witness for C8 at a concrete forty-five-track job. -/
theorem c8_batch_sizes_and_order_witness :
    c8songs.length = 45 ∧
    (import_playlist env1 "P" c8songs false []).state.flushes.map List.length
      = [20, 20, 5] ∧
    (import_playlist env1 "P" c8songs false []).state.flushes.flatten
      = c8songs.map Song.videoId :=
  ⟨by decide,
   (c8_batch_sizes_and_order env1 "P" c8songs false [] (by decide) (by decide)).1,
   (c8_batch_sizes_and_order env1 "P" c8songs false [] (by decide) (by decide)).2⟩

/-- Claim C7.  In append mode, when the library listing succeeds and some
playlist's title equals the job's name under case-insensitive,
whitespace-trimmed comparison, the first such playlist (with its non-empty
id, as the adapter contract guarantees) is reused and nothing is created;
when no title matches, or when the listing call fails, exactly one playlist
is created. -/
theorem c7_append_reuse_or_create (env : Env) (name : String) (songs : List Song)
    (cache0 : SearchCache) :
    (∀ (L : List LibPlaylist) (pl : LibPlaylist), env.library = some L →
       (∀ q ∈ L, q.playlistId ≠ "") →
       L.find? (titleMatches name) = some pl →
       (import_playlist env name songs true cache0).playlist_id = pl.playlistId ∧
       countCreates (import_playlist env name songs true cache0).state.events = 0) ∧
    (∀ L : List LibPlaylist, env.library = some L →
       L.find? (titleMatches name) = none →
       countCreates (import_playlist env name songs true cache0).state.events = 1) ∧
    (env.library = none →
       countCreates (import_playlist env name songs true cache0).state.events = 1) := by
  refine ⟨?_, ?_, ?_⟩
  · intro L pl hL hids hfind
    have hmem : pl ∈ L := List.mem_of_find?_eq_some hfind
    have hbeq : (pl.playlistId == "") = false := beq_eq_false_iff_ne.mpr (hids pl hmem)
    have hsetup : setupPlaylist env name true = (pl.playlistId, [Event.listPlaylists]) := by
      simp [setupPlaylist, hL, hfind, hbeq]
    refine ⟨?_, ?_⟩
    · rw [import_playlist_id, hsetup]
    · rw [import_playlist_state, runSongs_countCreates]
      show countCreates (setupPlaylist env name true).2 = 0
      rw [hsetup]
      rfl
  · intro L hL hfind
    have hsetup : setupPlaylist env name true =
        (env.createdId, [Event.listPlaylists, Event.createPlaylist name]) := by
      simp [setupPlaylist, hL, hfind]
    rw [import_playlist_state, runSongs_countCreates]
    show countCreates (setupPlaylist env name true).2 = 1
    rw [hsetup]
    rfl
  · intro hnone
    have hsetup : setupPlaylist env name true =
        (env.createdId, [Event.listPlaylists, Event.createPlaylist name]) := by
      simp [setupPlaylist, hnone]
    rw [import_playlist_state, runSongs_countCreates]
    show countCreates (setupPlaylist env name true).2 = 1
    rw [hsetup]
    rfl

/-- Witness for C7: stored title " My Mix ", requested name "my mix". -/
theorem c7_append_reuse_or_create_witness :
    env7.library = some c7lib ∧
    c7lib.find? (titleMatches "my mix") = some ⟨"PL9", " My Mix "⟩ ∧
    (import_playlist env7 "my mix" [] true []).playlist_id = "PL9" ∧
    countCreates (import_playlist env7 "my mix" [] true []).state.events = 0 :=
  ⟨rfl, by decide,
   ((c7_append_reuse_or_create env7 "my mix" [] []).1 c7lib ⟨"PL9", " My Mix "⟩ rfl
      (by decide) (by decide)).1,
   ((c7_append_reuse_or_create env7 "my mix" [] []).1 c7lib ⟨"PL9", " My Mix "⟩ rfl
      (by decide) (by decide)).2⟩

set_option maxRecDepth 40000 in
/-- Claim C9, counterexample.  The claim says a pacing delay follows each
flush whatever its outcome.  On a job of twenty-one resolvable tracks whose
add-items calls fail, the trace holds two add-items submissions and no sleep
at all: the second submission is issued with no delay after the first
flush. -/
theorem c9_pacing_counterexample :
    countAdds (import_playlist env9 "P" c9songs false []).state.events = 2 ∧
    countSleeps (import_playlist env9 "P" c9songs false []).state.events = 0 := by
  refine ⟨by decide, by decide⟩

/-- Claim C9, amended.  The pacing delay follows each successful flush: in
every run's trace, a successful add-items submission is immediately followed
by the one-second sleep, and no sleep follows a failed submission. -/
theorem c9_pacing_after_success (env : Env) (name : String) (songs : List Song)
    (append : Bool) (cache0 : SearchCache) :
    pacedB (import_playlist env name songs append cache0).state.events = true := by
  rw [import_playlist_state]
  refine runSongs_pacedB env songs songs _ ?_
  show pacedB (setupPlaylist env name append).2 = true
  cases append <;> simp only [setupPlaylist] <;> split <;> (try split) <;> rfl

/-- Claim C10.  When a batch flush fails with a genuine failure, every id of
the batch increments the failed count, while a failure-details entry is
recorded only for ids some song of the playlist carries directly in its
`videoId` field (the first such song); an id obtained by search matches no
song and produces no entry, so the failed count can exceed the failures
list.  The concrete run flushes one direct id and one searched id, fails the
batch, and reports two failures with a single details entry. -/
theorem c10_failure_details_direct_only :
    (∀ (env : Env) (songs : List Song) (st : RunState) (pe : PyError),
       env.addOutcome st.batch = .error pe →
       (doFlush env songs st).failed = st.failed + st.batch.length ∧
       (doFlush env songs st).failed_songs =
         st.failed_songs ++ (st.batch.map (matchingEntry songs nameErrMsg)).flatten ∧
       (∀ vid, vid ∈ st.batch → (∀ s ∈ songs, s.videoId ≠ vid) →
          matchingEntry songs nameErrMsg vid = [])) ∧
    ((import_playlist env10 "P" c10songs true []).state.failed = 2 ∧
     (import_playlist env10 "P" c10songs true []).state.failed_songs.length = 1 ∧
     (import_playlist env10 "P" c10songs true []).state.searched = 1 ∧
     (import_playlist env10 "P" c10songs true []).state.flushes =
       [["vvvvvvvvvvv", "sssssssssss"]]) := by
  constructor
  · intro env songs st pe hpe
    rw [doFlush_eq]
    simp only [hpe]
    refine ⟨?_, ?_, ?_⟩
    · rw [foldl_failAccum_failed]
    · rw [foldl_failAccum_entries]
    · intro vid _ hnone
      have hfind : songs.find? (fun s => s.videoId == vid) = none :=
        List.find?_eq_none.mpr (fun x hx => by simpa using hnone x hx)
      simp [matchingEntry, hfind]
  · refine ⟨by decide, by decide, by decide, by decide⟩

/-- Witness for C10's general flush characterization at a concrete state. -/
theorem c10_failure_details_direct_only_witness :
    env10.addOutcome stW.batch = Except.error ⟨false, none, "boom"⟩ ∧
    (doFlush env10 [] stW).failed = stW.failed + stW.batch.length ∧
    (doFlush env10 [] stW).failed_songs =
      stW.failed_songs ++ (stW.batch.map (matchingEntry [] nameErrMsg)).flatten :=
  ⟨rfl,
   (c10_failure_details_direct_only.1 env10 [] stW ⟨false, none, "boom"⟩ rfl).1,
   (c10_failure_details_direct_only.1 env10 [] stW ⟨false, none, "boom"⟩ rfl).2.1⟩

end YTImporter
